import Mathlib

/-!
Shallow embedding of `src/process.rs` from skanel/rust-tor-controller.

Raw log lines are modelled as `List Char` (the bytes handed back by
`read_line`, trailing newline included); the child's stdout stream is the
list of lines the reader yields before end-of-stream.  The child process
handle is a `Nat` token.  `io::Error` values are modelled as `Nat` codes.
Rust string slicing `&s[a..b]` is partial (it panics when `a > b` or
`b > s.len()`), so the slice helper returns an `Option` and the per-line
step has an explicit `panic` outcome.
-/

namespace Tor

/-- The `Error` enum of `process.rs` (lines 12-21).  `io::Error` and
`regex::Error` payloads are modelled as `Nat` codes. -/
inductive Error where
  | Process (err : Nat)
  | Tor (line : List Char) (warnings : List (List Char))
  | InvalidLogLine
  | InvalidBootstrapLine (line : List Char)
  | Regex (err : Nat)
  | ProcessNotStarted
  | Timeout
deriving DecidableEq

/-- `"May 16 02:50:08.792".len()` (process.rs line 128). -/
def timestamp_len : Nat := ("May 16 02:50:08.792").data.length

/-- Rust string slicing `&s[a..b]`: defined when `a ≤ b ≤ s.len()`,
otherwise the program panics (`none`). -/
def lineSlice (s : List Char) (a b : Nat) : Option (List Char) :=
  if a ≤ b ∧ b ≤ s.length then some ((s.take b).drop a) else none

/-- The body slice `&raw_line[timestamp_len + 1..raw_line.len() - 1]`
(process.rs line 138), as a total function (meaningful when
`raw_line.len() ≥ timestamp_len + 2`). -/
def lineBody (raw_line : List Char) : List Char :=
  (raw_line.take (raw_line.length - 1)).drop (timestamp_len + 1)

/-- Rust `str::split(' ')`: pieces between single-space separators,
empty pieces included; always at least one piece. -/
def splitSp : List Char → List (List Char)
  | [] => [[]]
  | c :: rest =>
    if c = ' ' then [] :: splitSp rest
    else
      match splitSp rest with
      | [] => [[c]]
      | t :: ts => (c :: t) :: ts

/-- Numeric value of a digit string. -/
def natOfDigits (ds : List Char) : Nat :=
  ds.foldl (fun a c => 10 * a + (c.toNat - ('0').toNat)) 0

/-- `pat` is an initial segment of `s`. -/
def leadMatch : List Char → List Char → Bool
  | [], _ => true
  | _ :: _, [] => false
  | a :: as, b :: bs => a = b && leadMatch as bs

/-- The chain at process.rs lines 143-146: match the anchored pattern
`Bootstrapped <digits>%:<space>` of the regex
`^\[notice\] Bootstrapped (?P<perc>[0-9]+)%: ` against the body and parse
the capture with `parse::<u8>()`.  Because `[0-9]+` is followed by the
literal `%`, and `%` is not a digit, the greedy match is the maximal
digit run after the space; backtracking to a shorter run cannot succeed,
so the regex matches exactly when that maximal run is nonempty and is
followed by `"%: "`.  `parse::<u8>` succeeds on a digit string exactly
when its value fits in 8 bits. -/
def re_bootstrap_perc (line : List Char) : Option Nat :=
  if leadMatch ("[notice] Bootstrapped ").data line then
    let rest := line.drop (("[notice] Bootstrapped ").data.length)
    let ds := rest.takeWhile (fun c => c.isDigit)
    if ds = [] then none
    else if leadMatch ("%: ").data (rest.drop ds.length) then
      if natOfDigits ds ≤ 255 then some (natOfDigits ds) else none
    else none
  else none

/-- Outcome of one iteration of the `while` loop of `parse_tor_stdout`
(process.rs lines 132-159) on the raw line just read. -/
inductive LineStep where
  | panic
  | retErr (e : Error)
  | retTor (line : List Char)
  | brk
  | cont (warn : Option (List Char))
deriving DecidableEq

/-- The loop body of `parse_tor_stdout` for one raw line (process.rs
lines 133-156): the short-line guard, the two slices, the dispatch on the
first space-separated token, and in the `[notice] Bootstrapped` case the
regex-and-parse chain.  A `[warn]` line yields `cont (some body)` (the
body is pushed on `warnings`); a `[err]` line yields `retTor body`
(returned as `Error::Tor(body, warnings)` by the loop). -/
def processLine (raw_line : List Char) (completion_perc : Nat) : LineStep :=
  if raw_line.length < timestamp_len + 1 then .retErr .InvalidLogLine
  else
    match lineSlice raw_line (timestamp_len + 1) (raw_line.length - 1) with
    | none => .panic
    | some line =>
      match (splitSp line)[0]? with
      | some t0 =>
        if t0 = ("[notice]").data then
          if (splitSp line)[1]? = some (("Bootstrapped").data) then
            match re_bootstrap_perc line with
            | none => .retErr (.InvalidBootstrapLine line)
            | some perc => if completion_perc ≤ perc then .brk else .cont none
          else .cont none
        else if t0 = ("[warn]").data then .cont (some line)
        else if t0 = ("[err]").data then .retTor line
        else .cont none
      | none => .cont none

/-- Result of `parse_tor_stdout`: `ok rest` is `Ok(stdout)` with the
reader positioned on the remaining lines, `err e` is `Err(e)`, and
`panic` is an out-of-range slice panic on the monitor thread. -/
inductive MonitorResult where
  | panic
  | ok (rest : List (List Char))
  | err (e : Error)
deriving DecidableEq

/-- The `while read_line` loop of `parse_tor_stdout` with the current
`warnings` vector, over the list of lines the reader still holds.
End-of-stream (`read_line` returning 0) leaves the loop and the function
returns `Ok(stdout)`. -/
def parse_tor_stdout_from (completion_perc : Nat) :
    List (List Char) → List (List Char) → MonitorResult
  | _, [] => .ok []
  | warnings, l :: rest =>
    match processLine l completion_perc with
    | .panic => .panic
    | .retErr e => .err e
    | .retTor line => .err (.Tor line warnings)
    | .brk => .ok rest
    | .cont w => parse_tor_stdout_from completion_perc (warnings ++ w.toList) rest

/-- `TorProcess::parse_tor_stdout` (process.rs lines 122-161): the
constant regex compiles, `warnings` starts empty, and the loop runs to a
break, a return or end-of-stream. -/
def parse_tor_stdout (lines : List (List Char)) (completion_perc : Nat) : MonitorResult :=
  parse_tor_stdout_from completion_perc [] lines

/-- The `TorProcess` struct (process.rs lines 23-31).  The retained
reader is the list of lines still unread; the child handle is a token. -/
structure TorProcess where
  tor_cmd : List Char
  args : List (List Char)
  torrc_path : Option (List Char)
  completion_percent : Nat
  timeout : Nat
  stdout : Option (List (List Char))
  process : Option Nat
deriving DecidableEq

/-- `TorProcess::new` (process.rs lines 34-44). -/
def TorProcess.new : TorProcess :=
  { tor_cmd := ("tor").data
    args := []
    torrc_path := none
    completion_percent := 100
    timeout := 0
    stdout := none
    process := none }

/-- Which message reaches `stdout_rx.recv()` first when both the monitor
thread and the timer callback send one. -/
inductive RaceWinner where
  | monitor
  | timer
deriving DecidableEq

/-- The environment a call to `launch` runs in: the outcome of
`Command::spawn` (an `io::Error` code, or a child handle together with
the lines its stdout will produce), which sender wins the race for
`stdout_rx.recv()`, and whether `Child::kill` fails (its result is
discarded by `unwrap_or(())`, so the flag is never read). -/
structure LaunchEnv where
  spawnResult : Except Nat (Nat × List (List Char))
  winner : RaceWinner
  killErr : Bool

/-- What a call to `launch` returned. -/
inductive LaunchResult where
  | ok
  | err (e : Error)
  | panicked
deriving DecidableEq

/-- Observable outcome of `launch`: the supervisor state when it
returns, the returned value, the delay (in seconds) the timer was
scheduled with (`none` when `launch` returned before reaching the timer),
and the child handles whose termination was requested. -/
structure LaunchOutput where
  state : TorProcess
  result : LaunchResult
  armedDelay : Option Nat
  killed : List Nat

/-- `TorProcess::launch` (process.rs lines 80-120).  A spawn failure
returns `Err(Process)` before the timer is created.  Otherwise the child
handle is stored, the timer is scheduled unconditionally with delay
`self.timeout` seconds, and `recv()` yields the monitor result or
`Err(Timeout)`, whichever is sent first.  If the monitor thread panics
it never sends, so only the timer message can arrive; the error branch
then kills the child and `stdout_thread.join().unwrap()` panics.  On
`Ok` the reader is stored; on `Err` the child is killed (the kill result
discarded) and the error returned. -/
def launch (s : TorProcess) (env : LaunchEnv) : LaunchOutput :=
  match env.spawnResult with
  | .error e => { state := s, result := .err (.Process e), armedDelay := none, killed := [] }
  | .ok (child, lines) =>
    let s1 : TorProcess := { s with process := some child }
    let armed : Option Nat := some s.timeout
    match parse_tor_stdout lines s.completion_percent, env.winner with
    | .panic, _ =>
      { state := s1, result := .panicked, armedDelay := armed, killed := [child] }
    | .ok rest, .monitor =>
      { state := { s1 with stdout := some rest }, result := .ok
        armedDelay := armed, killed := [] }
    | .err e, .monitor =>
      { state := s1, result := .err e, armedDelay := armed, killed := [child] }
    | .ok _, .timer =>
      { state := s1, result := .err .Timeout, armedDelay := armed, killed := [child] }
    | .err _, .timer =>
      { state := s1, result := .err .Timeout, armedDelay := armed, killed := [child] }

/-- `TorProcess::kill` (process.rs lines 163-169).  `primResult` is the
outcome of the `Child::kill` termination primitive, consulted only when
a child exists. -/
def TorProcess.kill (s : TorProcess) (primResult : Except Nat Unit) : Except Error Unit :=
  match s.process with
  | some _ =>
    match primResult with
    | .ok _ => .ok ()
    | .error e => .error (.Process e)
  | none => .error .ProcessNotStarted

/-- The `warnings.push` contribution of one line: the payload of a
`cont` step (`some body` exactly for `[warn]` lines). -/
def warnOf (completion_perc : Nat) (l : List Char) : Option (List Char) :=
  match processLine l completion_perc with
  | .cont w => w
  | _ => none

/-- The bodies the `warnings` vector accumulates over a run of
loop-continuing lines, in arrival order. -/
def warnBodies (completion_perc : Nat) (pre : List (List Char)) : List (List Char) :=
  pre.filterMap (warnOf completion_perc)

/-- A raw line whose first body token is `[warn]` (and which is long
enough to be sliced without panicking). -/
def isWarnLine (l : List Char) : Bool :=
  decide (timestamp_len + 2 ≤ l.length) &&
    ((splitSp (lineBody l))[0]? == some (("[warn]").data))

/-- The loop continues past this step (`Info`, `Other`, `Warning`, or a
bootstrap notice below the target). -/
def isContStep : LineStep → Bool
  | .cont _ => true
  | _ => false

theorem timestamp_len_eq : timestamp_len = 19 := rfl

theorem lineSlice_body (l : List Char) (h : timestamp_len + 2 ≤ l.length) :
    lineSlice l (timestamp_len + 1) (l.length - 1) = some (lineBody l) := by
  have h1 : timestamp_len + 1 ≤ l.length - 1 ∧ l.length - 1 ≤ l.length := by omega
  unfold lineSlice lineBody
  rw [if_pos h1]

theorem processLine_short (l : List Char) (p : Nat)
    (h : l.length < timestamp_len + 1) :
    processLine l p = .retErr .InvalidLogLine := by
  unfold processLine
  rw [if_pos h]

theorem processLine_len20 (l : List Char) (p : Nat)
    (h : l.length = timestamp_len + 1) :
    processLine l p = .panic := by
  unfold processLine
  rw [if_neg (by omega)]
  have hs : lineSlice l (timestamp_len + 1) (l.length - 1) = none := by
    have h19 := timestamp_len_eq
    unfold lineSlice
    rw [if_neg]
    omega
  rw [hs]

theorem parse_from_cont (p : Nat) (pre : List (List Char))
    (h : ∀ l ∈ pre, isContStep (processLine l p) = true) :
    ∀ (w rest : List (List Char)),
      parse_tor_stdout_from p w (pre ++ rest) =
        parse_tor_stdout_from p (w ++ warnBodies p pre) rest := by
  induction pre with
  | nil =>
    intro w rest
    simp [warnBodies]
  | cons l pre ih =>
    intro w rest
    have hl := h l (by simp)
    have hpre : ∀ x ∈ pre, isContStep (processLine x p) = true :=
      fun x hx => h x (by simp [hx])
    cases hpl : processLine l p with
    | panic => rw [hpl] at hl; simp [isContStep] at hl
    | retErr e => rw [hpl] at hl; simp [isContStep] at hl
    | retTor li => rw [hpl] at hl; simp [isContStep] at hl
    | brk => rw [hpl] at hl; simp [isContStep] at hl
    | cont wa =>
      have hstep : parse_tor_stdout_from p w ((l :: pre) ++ rest)
          = parse_tor_stdout_from p (w ++ wa.toList) (pre ++ rest) := by
        simp [parse_tor_stdout_from, hpl]
      rw [hstep, ih hpre]
      congr 1
      have hwo : warnOf p l = wa := by simp [warnOf, hpl]
      cases wa with
      | none => simp [warnBodies, List.filterMap_cons, hwo]
      | some x => simp [warnBodies, List.filterMap_cons, hwo]

theorem processLine_of_body (l : List Char) (p : Nat)
    (hlen : timestamp_len + 2 ≤ l.length) :
    processLine l p =
      (match (splitSp (lineBody l))[0]? with
      | some t0 =>
        if t0 = ("[notice]").data then
          if (splitSp (lineBody l))[1]? = some (("Bootstrapped").data) then
            match re_bootstrap_perc (lineBody l) with
            | none => .retErr (.InvalidBootstrapLine (lineBody l))
            | some perc => if p ≤ perc then .brk else .cont none
          else .cont none
        else if t0 = ("[warn]").data then .cont (some (lineBody l))
        else if t0 = ("[err]").data then .retTor (lineBody l)
        else .cont none
      | none => .cont none) := by
  unfold processLine
  rw [if_neg (by omega), lineSlice_body l hlen]

theorem processLine_brk (b : List Char) (p perc : Nat)
    (hlen : timestamp_len + 2 ≤ b.length)
    (ht0 : (splitSp (lineBody b))[0]? = some (("[notice]").data))
    (ht1 : (splitSp (lineBody b))[1]? = some (("Bootstrapped").data))
    (hperc : re_bootstrap_perc (lineBody b) = some perc)
    (ht : p ≤ perc) :
    processLine b p = .brk := by
  rw [processLine_of_body b p hlen, ht0, ht1, hperc]
  simp [ht]

theorem processLine_invalidBootstrap (b : List Char) (p : Nat)
    (hlen : timestamp_len + 2 ≤ b.length)
    (ht0 : (splitSp (lineBody b))[0]? = some (("[notice]").data))
    (ht1 : (splitSp (lineBody b))[1]? = some (("Bootstrapped").data))
    (hperc : re_bootstrap_perc (lineBody b) = none) :
    processLine b p = .retErr (.InvalidBootstrapLine (lineBody b)) := by
  rw [processLine_of_body b p hlen, ht0, ht1, hperc]
  simp

theorem processLine_tor (b : List Char) (p : Nat)
    (hlen : timestamp_len + 2 ≤ b.length)
    (ht0 : (splitSp (lineBody b))[0]? = some (("[err]").data)) :
    processLine b p = .retTor (lineBody b) := by
  have hne1 : (("[err]").data) ≠ (("[notice]").data) := by decide
  have hne2 : (("[err]").data) ≠ (("[warn]").data) := by decide
  rw [processLine_of_body b p hlen, ht0]
  simp [hne1, hne2]

theorem filterMap_eq_map_filter {α β : Type} (f : α → Option β) (q : α → Bool)
    (g : α → β) (l : List α)
    (h : ∀ x ∈ l, f x = if q x then some (g x) else none) :
    l.filterMap f = (l.filter q).map g := by
  induction l with
  | nil => simp
  | cons a l ih =>
    have ha := h a (by simp)
    have hl : ∀ x ∈ l, f x = if q x then some (g x) else none :=
      fun x hx => h x (by simp [hx])
    by_cases hq : q a = true
    · simp [List.filterMap_cons, ha, hq, List.filter_cons, ih hl]
    · rw [Bool.not_eq_true] at hq
      simp [List.filterMap_cons, ha, hq, List.filter_cons, ih hl]

theorem warnOf_of_cont (p : Nat) (l : List Char)
    (h : isContStep (processLine l p) = true) :
    warnOf p l = if isWarnLine l then some (lineBody l) else none := by
  by_cases hshort : l.length < timestamp_len + 1
  · rw [processLine_short l p hshort] at h
    simp [isContStep] at h
  · by_cases h20 : l.length = timestamp_len + 1
    · rw [processLine_len20 l p h20] at h
      simp [isContStep] at h
    · have hlen : timestamp_len + 2 ≤ l.length := by omega
      have hwl : isWarnLine l =
          ((splitSp (lineBody l))[0]? == some (("[warn]").data)) := by
        unfold isWarnLine
        rw [decide_eq_true hlen, Bool.true_and]
      cases hg : (splitSp (lineBody l))[0]? with
      | none =>
        have hc : processLine l p = .cont none := by
          rw [processLine_of_body l p hlen, hg]
        simp [warnOf, hc, hwl, hg]
      | some t0 =>
        by_cases hn : t0 = ("[notice]").data
        · subst hn
          have hne : ((("[notice]").data : List Char) = ("[warn]").data) = False := by
            simp
          by_cases hb : (splitSp (lineBody l))[1]? = some (("Bootstrapped").data)
          · cases hrb : re_bootstrap_perc (lineBody l) with
            | none =>
              rw [processLine_invalidBootstrap l p hlen hg hb hrb] at h
              simp [isContStep] at h
            | some perc =>
              by_cases hp : p ≤ perc
              · rw [processLine_brk l p perc hlen hg hb hrb hp] at h
                simp [isContStep] at h
              · have hc : processLine l p = .cont none := by
                  rw [processLine_of_body l p hlen, hg, hb, hrb]
                  simp [hp]
                simp [warnOf, hc, hwl, hg, hne]
          · have hc : processLine l p = .cont none := by
              rw [processLine_of_body l p hlen, hg]
              simp [hb]
            simp [warnOf, hc, hwl, hg, hne]
        · by_cases hw : t0 = ("[warn]").data
          · subst hw
            have hc : processLine l p = .cont (some (lineBody l)) := by
              rw [processLine_of_body l p hlen, hg]
              simp [hn]
            simp [warnOf, hc, hwl, hg]
          · by_cases he : t0 = ("[err]").data
            · subst he
              rw [processLine_tor l p hlen hg] at h
              simp [isContStep] at h
            · have hc : processLine l p = .cont none := by
                rw [processLine_of_body l p hlen, hg]
                simp [hn, hw, he]
              simp [warnOf, hc, hwl, hg, hw]

/-- Claim C1: whenever `launch` returns an error, the child it spawned
(if it spawned one at all) has had its termination requested before the
return, whatever the outcome of that request. -/
theorem launch_failure_kills_spawned_child (s : TorProcess) (env : LaunchEnv)
    (e : Error) (c : Nat) (lines : List (List Char))
    (hres : (launch s env).result = .err e)
    (hspawn : env.spawnResult = .ok (c, lines)) :
    c ∈ (launch s env).killed := by
  cases hp : parse_tor_stdout lines s.completion_percent <;>
    cases hw : env.winner <;>
      simp_all [launch]

theorem launch_failure_kills_spawned_child_witness :
    1 ∈ (launch TorProcess.new
      { spawnResult := .ok (1, []), winner := .timer, killErr := false }).killed :=
  launch_failure_kills_spawned_child TorProcess.new
    { spawnResult := .ok (1, []), winner := .timer, killErr := false }
    .Timeout 1 [] rfl rfl

/-- Claim C2 (code bug): with `timeout = 0` — the default of
`TorProcess::new` — `launch` still schedules the timer, with a delay of
0 seconds, so a `Timeout` message can win the `recv` race and `launch`
returns `Err(Timeout)`; the deadline is not disabled. -/
theorem launch_timeout_zero_still_arms_and_times_out :
    TorProcess.new.timeout = 0 ∧
    (launch TorProcess.new
      { spawnResult := .ok (1, []), winner := .timer, killErr := false }).armedDelay
        = some 0 ∧
    (launch TorProcess.new
      { spawnResult := .ok (1, []), winner := .timer, killErr := false }).result
        = .err .Timeout :=
  ⟨rfl, rfl, rfl⟩

/-- Claim C8: `kill` on a supervisor that never spawned returns
`ProcessNotStarted`; with a child present, a failing termination
primitive is wrapped as `Process` and a successful one returns `Ok`. -/
theorem kill_not_started_and_wraps_process_errors
    (s t : TorProcess) (c e : Nat) (r : Except Nat Unit)
    (hs : s.process = none) (ht : t.process = some c) :
    TorProcess.kill s r = .error .ProcessNotStarted ∧
    TorProcess.kill t (.error e) = .error (.Process e) ∧
    TorProcess.kill t (.ok ()) = .ok () := by
  refine ⟨?_, ?_, ?_⟩ <;> simp [TorProcess.kill, hs, ht]

theorem kill_not_started_and_wraps_process_errors_witness :
    TorProcess.kill TorProcess.new (.ok ()) = .error .ProcessNotStarted ∧
    TorProcess.kill { TorProcess.new with process := some 3 } (.error 7)
      = .error (.Process 7) ∧
    TorProcess.kill { TorProcess.new with process := some 3 } (.ok ()) = .ok () :=
  kill_not_started_and_wraps_process_errors TorProcess.new
    { TorProcess.new with process := some 3 } 3 7 (.ok ()) rfl rfl

/-- Claim C9: a raw line of length exactly `timestamp_len + 1` (such as
a bare 19-character timestamp followed by a newline) passes the
short-line guard, but the body slice runs from index 20 to index 19, so
the monitor panics instead of producing a classification or an error. -/
theorem monitor_panics_on_length_twenty_line (l : List Char) (p : Nat)
    (pre rest : List (List Char))
    (hpre : ∀ x ∈ pre, isContStep (processLine x p) = true)
    (hlen : l.length = timestamp_len + 1) :
    ¬ l.length < timestamp_len + 1 ∧
    processLine l p = .panic ∧
    parse_tor_stdout (pre ++ l :: rest) p = .panic := by
  refine ⟨by omega, processLine_len20 l p hlen, ?_⟩
  unfold parse_tor_stdout
  rw [parse_from_cont p pre hpre]
  simp [parse_tor_stdout_from, processLine_len20 l p hlen]

theorem monitor_panics_on_length_twenty_line_witness :
    ¬ (("May 16 02:50:08.792\n").data).length < timestamp_len + 1 ∧
    processLine (("May 16 02:50:08.792\n").data) 100 = .panic ∧
    parse_tor_stdout ([] ++ (("May 16 02:50:08.792\n").data) :: []) 100 = .panic :=
  monitor_panics_on_length_twenty_line (("May 16 02:50:08.792\n").data) 100 [] []
    (by decide) (by decide)

/-- Claim C10: `launch` never inspects the stored child handle, so a
second `launch` on an already-launched supervisor spawns a fresh child,
overwrites the `process` and `stdout` fields, and requests no
termination of the first child. -/
theorem relaunch_overwrites_handle_without_killing_first_child
    (s : TorProcess) (c1 c2 : Nat) (lines rest : List (List Char)) (env : LaunchEnv)
    (hfirst : s.process = some c1)
    (hspawn : env.spawnResult = .ok (c2, lines))
    (hwin : env.winner = .monitor)
    (hmon : parse_tor_stdout lines s.completion_percent = .ok rest) :
    (launch s env).result = .ok ∧
    (launch s env).state.process = some c2 ∧
    (launch s env).state.stdout = some rest ∧
    (launch s env).killed = [] := by
  simp [launch, hspawn, hwin, hmon]

theorem relaunch_overwrites_handle_without_killing_first_child_witness :
    (launch { TorProcess.new with process := some 1 }
      { spawnResult := .ok (2, []), winner := .monitor, killErr := false }).result
        = .ok ∧
    (launch { TorProcess.new with process := some 1 }
      { spawnResult := .ok (2, []), winner := .monitor, killErr := false }).state.process
        = some 2 ∧
    (launch { TorProcess.new with process := some 1 }
      { spawnResult := .ok (2, []), winner := .monitor, killErr := false }).state.stdout
        = some [] ∧
    (launch { TorProcess.new with process := some 1 }
      { spawnResult := .ok (2, []), winner := .monitor, killErr := false }).killed
        = [] :=
  relaunch_overwrites_handle_without_killing_first_child
    { TorProcess.new with process := some 1 } 1 2 [] []
    { spawnResult := .ok (2, []), winner := .monitor, killErr := false }
    rfl rfl rfl rfl

/-- The environment of a `launch` call whose spawn succeeds with child
`c` producing `lines`, and whose monitor thread wins the `recv` race. -/
def monEnv (c : Nat) (lines : List (List Char)) : LaunchEnv :=
  { spawnResult := .ok (c, lines), winner := .monitor, killErr := false }

/-- Claim C3: the monitor succeeds at the first line whose body is a
well-formed bootstrap notice with percent at or above the target —
earlier lines only have to keep the loop running, no monotonicity of the
percent values is needed — and `launch` then returns `Ready` with the
reader positioned immediately after that line.  With target 0 any
well-formed bootstrap line (0% included) is such a line. -/
theorem monitor_first_bootstrap_at_target_returns_ready
    (s : TorProcess) (c : Nat) (pre rest : List (List Char)) (b : List Char) (perc : Nat)
    (hpre : ∀ l ∈ pre, isContStep (processLine l s.completion_percent) = true)
    (hlen : timestamp_len + 2 ≤ b.length)
    (ht0 : (splitSp (lineBody b))[0]? = some (("[notice]").data))
    (ht1 : (splitSp (lineBody b))[1]? = some (("Bootstrapped").data))
    (hperc : re_bootstrap_perc (lineBody b) = some perc)
    (htarget : s.completion_percent ≤ perc) :
    parse_tor_stdout (pre ++ b :: rest) s.completion_percent = .ok rest ∧
    (launch s (monEnv c (pre ++ b :: rest))).result = .ok ∧
    (launch s (monEnv c (pre ++ b :: rest))).state.stdout = some rest := by
  have hmon : parse_tor_stdout (pre ++ b :: rest) s.completion_percent = .ok rest := by
    unfold parse_tor_stdout
    rw [parse_from_cont _ pre hpre]
    simp [parse_tor_stdout_from,
      processLine_brk b s.completion_percent perc hlen ht0 ht1 hperc htarget]
  exact ⟨hmon, by simp [launch, monEnv, hmon], by simp [launch, monEnv, hmon]⟩

theorem monitor_first_bootstrap_at_target_returns_ready_witness :
    parse_tor_stdout
      ([] ++ (("May 16 02:50:08.792 [notice] Bootstrapped 0%: Starting\n").data) :: [])
      ({ TorProcess.new with completion_percent := 0 } : TorProcess).completion_percent
      = .ok [] ∧
    (launch { TorProcess.new with completion_percent := 0 }
      (monEnv 1 ([] ++ (("May 16 02:50:08.792 [notice] Bootstrapped 0%: Starting\n").data) :: []))).result = .ok ∧
    (launch { TorProcess.new with completion_percent := 0 }
      (monEnv 1 ([] ++ (("May 16 02:50:08.792 [notice] Bootstrapped 0%: Starting\n").data) :: []))).state.stdout = some [] :=
  monitor_first_bootstrap_at_target_returns_ready
    { TorProcess.new with completion_percent := 0 } 1 [] []
    (("May 16 02:50:08.792 [notice] Bootstrapped 0%: Starting\n").data) 0
    (by decide) (by decide) (by decide) (by decide) (by decide) (by decide)

/-- Claim C4: a log sequence whose lines keep the loop running up to a
line with first body token `[err]` makes the monitor — and `launch` —
return `Tor` (the spec's `Router`) carrying that body and exactly the
bodies of the `[warn]` lines seen before it, in arrival order. -/
theorem monitor_err_line_returns_tor_with_ordered_warnings
    (s : TorProcess) (c : Nat) (pre rest : List (List Char)) (e : List Char)
    (hpre : ∀ l ∈ pre, isContStep (processLine l s.completion_percent) = true)
    (hlen : timestamp_len + 2 ≤ e.length)
    (ht0 : (splitSp (lineBody e))[0]? = some (("[err]").data)) :
    parse_tor_stdout (pre ++ e :: rest) s.completion_percent
      = .err (.Tor (lineBody e) ((pre.filter isWarnLine).map lineBody)) ∧
    (launch s (monEnv c (pre ++ e :: rest))).result
      = .err (.Tor (lineBody e) ((pre.filter isWarnLine).map lineBody)) := by
  have hwb : warnBodies s.completion_percent pre = (pre.filter isWarnLine).map lineBody := by
    unfold warnBodies
    exact filterMap_eq_map_filter _ _ _ pre
      (fun x hx => warnOf_of_cont s.completion_percent x (hpre x hx))
  have hmon : parse_tor_stdout (pre ++ e :: rest) s.completion_percent
      = .err (.Tor (lineBody e) ((pre.filter isWarnLine).map lineBody)) := by
    unfold parse_tor_stdout
    rw [parse_from_cont _ pre hpre]
    simp [parse_tor_stdout_from, processLine_tor e s.completion_percent hlen ht0, hwb]
  exact ⟨hmon, by simp [launch, monEnv, hmon]⟩

theorem monitor_err_line_returns_tor_with_ordered_warnings_witness :
    parse_tor_stdout
      ((("May 16 02:50:08.792 [warn] Could not bind\n").data) ::
        (("May 16 02:50:08.792 [err] Reading config failed\n").data) :: [])
      TorProcess.new.completion_percent
      = .err (.Tor (lineBody (("May 16 02:50:08.792 [err] Reading config failed\n").data))
          ((((("May 16 02:50:08.792 [warn] Could not bind\n").data) :: []).filter
            isWarnLine).map lineBody)) ∧
    (launch TorProcess.new
      (monEnv 1 ((("May 16 02:50:08.792 [warn] Could not bind\n").data) ::
        (("May 16 02:50:08.792 [err] Reading config failed\n").data) :: []))).result
      = .err (.Tor (lineBody (("May 16 02:50:08.792 [err] Reading config failed\n").data))
          ((((("May 16 02:50:08.792 [warn] Could not bind\n").data) :: []).filter
            isWarnLine).map lineBody)) := by
  have h := monitor_err_line_returns_tor_with_ordered_warnings
    TorProcess.new 1
    ((("May 16 02:50:08.792 [warn] Could not bind\n").data) :: [])
    []
    (("May 16 02:50:08.792 [err] Reading config failed\n").data)
    (by decide) (by decide) (by decide)
  simpa using h

/-- Claim C5: when the stream ends while every line so far has kept the
loop running (no bootstrap line met the target, no error-classified and
no malformed line), the monitor falls out of its loop and returns the
reader as `Ok`, so `launch` returns `Ready`. -/
theorem monitor_eof_returns_ready
    (s : TorProcess) (c : Nat) (lines : List (List Char))
    (h : ∀ l ∈ lines, isContStep (processLine l s.completion_percent) = true) :
    parse_tor_stdout lines s.completion_percent = .ok [] ∧
    (launch s (monEnv c lines)).result = .ok := by
  have hmon : parse_tor_stdout lines s.completion_percent = .ok [] := by
    have h2 := parse_from_cont s.completion_percent lines h [] []
    rw [List.append_nil] at h2
    unfold parse_tor_stdout
    rw [h2]
    simp [parse_tor_stdout_from]
  exact ⟨hmon, by simp [launch, monEnv, hmon]⟩

theorem monitor_eof_returns_ready_witness :
    parse_tor_stdout
      ((("May 16 02:50:08.792 [notice] Opening Socks listener\n").data) ::
        (("May 16 02:50:08.792 [notice] Bootstrapped 50%: Loading relay descriptors\n").data)
          :: [])
      TorProcess.new.completion_percent = .ok [] ∧
    (launch TorProcess.new
      (monEnv 1 ((("May 16 02:50:08.792 [notice] Opening Socks listener\n").data) ::
        (("May 16 02:50:08.792 [notice] Bootstrapped 50%: Loading relay descriptors\n").data)
          :: []))).result = .ok :=
  monitor_eof_returns_ready TorProcess.new 1
    ((("May 16 02:50:08.792 [notice] Opening Socks listener\n").data) ::
      (("May 16 02:50:08.792 [notice] Bootstrapped 50%: Loading relay descriptors\n").data)
        :: [])
    (by decide)

/-- Claim C6: a raw line shorter than `timestamp_len + 1` characters
(19-character timestamp prefix plus one separator) makes the monitor
return `InvalidLogLine` and stop; in particular a line of length 19. -/
theorem monitor_short_line_invalid_log_line
    (p : Nat) (pre rest : List (List Char)) (l : List Char)
    (hpre : ∀ x ∈ pre, isContStep (processLine x p) = true)
    (hlen : l.length < timestamp_len + 1) :
    parse_tor_stdout (pre ++ l :: rest) p = .err .InvalidLogLine := by
  unfold parse_tor_stdout
  rw [parse_from_cont p pre hpre]
  simp [parse_tor_stdout_from, processLine_short l p hlen]

theorem monitor_short_line_invalid_log_line_witness :
    parse_tor_stdout ([] ++ (("May 16 02:50:08.792").data) :: []) 100
      = .err .InvalidLogLine :=
  monitor_short_line_invalid_log_line 100 [] [] (("May 16 02:50:08.792").data)
    (by decide) (by decide)

/-- Claim C7 (counterexample): the raw line whose body is
`[notice] BootstrappedX` starts with `[notice] Bootstrapped` and its
percent cannot be parsed from the anchored pattern, yet the monitor does
not return `InvalidBootstrapLine`: the second space-separated token is
`BootstrappedX`, not `Bootstrapped`, so the line is treated as a plain
notice, the loop continues, and the stream ends with `Ok`. -/
theorem bootstrapped_raw_head_line_is_not_rejected :
    leadMatch (("[notice] Bootstrapped").data)
      (lineBody (("May 16 02:50:08.792 [notice] BootstrappedX\n").data)) = true ∧
    re_bootstrap_perc (lineBody (("May 16 02:50:08.792 [notice] BootstrappedX\n").data))
      = none ∧
    processLine (("May 16 02:50:08.792 [notice] BootstrappedX\n").data) 100
      = .cont none ∧
    parse_tor_stdout [("May 16 02:50:08.792 [notice] BootstrappedX\n").data] 100
      = .ok [] := by
  decide

/-- Claim C7 (amended): for a line whose body's first two
space-separated tokens are `[notice]` and exactly `Bootstrapped` but
whose percent cannot be extracted by the anchored pattern
`Bootstrapped <digits>%:<space>` and parsed as a `u8`, the monitor
returns `InvalidBootstrapLine` carrying the body, and exits. -/
theorem monitor_malformed_bootstrap_invalid_line
    (p : Nat) (pre rest : List (List Char)) (l : List Char)
    (hpre : ∀ x ∈ pre, isContStep (processLine x p) = true)
    (hlen : timestamp_len + 2 ≤ l.length)
    (ht0 : (splitSp (lineBody l))[0]? = some (("[notice]").data))
    (ht1 : (splitSp (lineBody l))[1]? = some (("Bootstrapped").data))
    (hperc : re_bootstrap_perc (lineBody l) = none) :
    parse_tor_stdout (pre ++ l :: rest) p = .err (.InvalidBootstrapLine (lineBody l)) := by
  unfold parse_tor_stdout
  rw [parse_from_cont p pre hpre]
  simp [parse_tor_stdout_from, processLine_invalidBootstrap l p hlen ht0 ht1 hperc]

theorem monitor_malformed_bootstrap_invalid_line_witness :
    parse_tor_stdout
      ([] ++ (("Apr 01 12:00:00.000 [notice] Bootstrapped XX%: Broken\n").data) :: []) 100
      = .err (.InvalidBootstrapLine
          (lineBody (("Apr 01 12:00:00.000 [notice] Bootstrapped XX%: Broken\n").data))) :=
  monitor_malformed_bootstrap_invalid_line 100 [] []
    (("Apr 01 12:00:00.000 [notice] Bootstrapped XX%: Broken\n").data)
    (by decide) (by decide) (by decide) (by decide) (by decide)

end Tor
